import Mathlib

/-!
jack-pipe: the per-cycle transfer callback and the start-up sequence.

A shallow embedding of `src/jack-pipe.c`.

* Samples are kept abstract (a type `α` with a zero element): `memcpy` moves
  them unchanged and `memset (out, 0, sizeof sample)` produces the sample whose
  bytes are all zero.
* `long unsigned` is a natural number below `2 ^ 64`, with wrap-around written
  out explicitly; `long` is an integer; `jack_nframes_t` is a natural number
  below `2 ^ 32`.
* Buffers are lists; a copy that would leave a buffer makes the call undefined
  (`none`).
-/

namespace JackPipe

/-! ## Machine arithmetic -/

/-- Number of values of a `long unsigned` (and of `size_t`). -/
def ULONG_MOD : Nat := 2 ^ 64

/-- Number of values of a `jack_nframes_t` (`uint32_t`). -/
def NFRAMES_MOD : Nat := 2 ^ 32

/-- Size in bytes of one sample, `sizeof (jack_default_audio_sample_t)` and
`sizeof (float)`. -/
def SAMPLE_SIZE : Nat := 4

/-- The macro `MIN( a, b )`, `( ( a < b ) ? a : b )`, on unsigned operands. -/
def MIN (a b : Nat) : Nat := if a < b then a else b

/-- Subtraction of two `long unsigned` values, `a - b`, wrapping modulo `2 ^ 64`. -/
def ulong_sub (a b : Nat) : Nat := (a + ULONG_MOD - b % ULONG_MOD) % ULONG_MOD

/-- Conversion of a `long unsigned` value to `long` (two's complement). -/
def to_long (u : Nat) : Int :=
  if u % ULONG_MOD < ULONG_MOD / 2 then ((u % ULONG_MOD : Nat) : Int)
  else ((u % ULONG_MOD : Nat) : Int) - (ULONG_MOD : Int)

/-- Conversion of a `long` value to `long unsigned` (reduction modulo `2 ^ 64`). -/
def to_ulong (i : Int) : Nat := (i % (ULONG_MOD : Int)).toNat

/-- The byte count `sizeof (sample) * n` for a `long` count `n`, computed in
`size_t`. -/
def byte_count (n : Int) : Nat := (SAMPLE_SIZE * to_ulong n) % ULONG_MOD

/-- The compound assignment `off += n` of a `long` to a `long unsigned`. -/
def ulong_add_long (off : Nat) (n : Int) : Nat := (off + to_ulong n) % ULONG_MOD

/-! ## Memory operations on sample buffers -/

/-- The call `memcpy (dst + d, src + s, nbytes)` on sample buffers: the
`nbytes / sizeof sample` samples of `src` from index `s` replace those of `dst`
from index `d`. Undefined when either range leaves its buffer. -/
def memcpy {α : Type} (dst : List α) (d : Nat) (src : List α) (s : Nat) (nbytes : Nat) :
    Option (List α) :=
  if d + nbytes / SAMPLE_SIZE ≤ dst.length ∧ s + nbytes / SAMPLE_SIZE ≤ src.length then
    some (dst.take d ++ ((src.drop s).take (nbytes / SAMPLE_SIZE)
      ++ dst.drop (d + nbytes / SAMPLE_SIZE)))
  else none

/-- The call `memset (dst, 0, nbytes)` on a sample buffer: the first
`nbytes / sizeof sample` samples become the all-zero sample. Undefined when the
range leaves the buffer. -/
def memset_zero {α : Type} [Zero α] (dst : List α) (nbytes : Nat) : Option (List α) :=
  if nbytes / SAMPLE_SIZE ≤ dst.length then
    some (List.replicate (nbytes / SAMPLE_SIZE) (0 : α) ++ dst.drop (nbytes / SAMPLE_SIZE))
  else none

/-! ## The global state read and written by `process` -/

/-- The globals of `jack-pipe.c` that `process` uses. -/
structure State (α : Type) where
  /-- The samples of the source file (`float *input_file_data`). -/
  input_file_data : List α
  /-- The recording buffer (`float *output_file_data`). -/
  output_file_data : List α
  /-- Number of frames of the source file. -/
  input_file_frames : Nat
  /-- Number of frames to record. -/
  output_file_frames : Nat
  /-- Playback cursor. -/
  input_offset : Nat
  /-- Capture cursor. -/
  output_offset : Nat
  deriving DecidableEq, Repr

/-- What one call of `process` leaves behind: the globals, the output port
buffer and the returned `int`. -/
structure Result (α : Type) where
  /-- The globals after the call. -/
  state : State α
  /-- The output port buffer after the call. -/
  out : List α
  /-- The value returned to the server. -/
  ret : Int
  deriving DecidableEq, Repr

/-- Line 56: `long frames_to_write = MIN(nframes, input_file_frames - input_offset)`. -/
def frames_to_write {α : Type} (s : State α) (nframes : Nat) : Int :=
  to_long (MIN nframes (ulong_sub s.input_file_frames s.input_offset))

/-- Line 62: `long frames_to_read = MIN(nframes, output_file_frames - output_offset)`. -/
def frames_to_read {α : Type} (s : State α) (nframes : Nat) : Int :=
  to_long (MIN nframes (ulong_sub s.output_file_frames s.output_offset))

/-- The callback `process (nframes, arg)`. The two port buffers obtained from
`jack_port_get_buffer` are the arguments `inbuf` and `outbuf`. -/
def process {α : Type} [Zero α] (s : State α) (nframes : Nat) (inbuf outbuf : List α) :
    Option (Result α) :=
  match memcpy outbuf 0 s.input_file_data s.input_offset
      (byte_count (frames_to_write s nframes)) with
  | none => none
  | some out1 =>
    match memset_zero out1 SAMPLE_SIZE with
    | none => none
    | some out2 =>
      match memcpy s.output_file_data s.output_offset inbuf 0
          (byte_count (frames_to_read s nframes)) with
      | none => none
      | some cap =>
        some
          { state :=
              { input_file_data := s.input_file_data
                output_file_data := cap
                input_file_frames := s.input_file_frames
                output_file_frames := s.output_file_frames
                input_offset := ulong_add_long s.input_offset (frames_to_write s nframes)
                output_offset := ulong_add_long s.output_offset (frames_to_read s nframes) }
            out := out2
            ret := 0 }

/-! ## A state on which `process` may be called -/

/-- The buffers have the lengths the frame counts declare, the frame counts fit
a `long unsigned`, and each cursor lies inside its buffer. -/
def WellFormed {α : Type} (s : State α) : Prop :=
  s.input_file_data.length = s.input_file_frames ∧
  s.input_file_frames < ULONG_MOD ∧
  s.input_offset ≤ s.input_file_frames ∧
  s.output_file_data.length = s.output_file_frames ∧
  s.output_file_frames < ULONG_MOD ∧
  s.output_offset ≤ s.output_file_frames

instance {α : Type} (s : State α) : Decidable (WellFormed s) := by
  unfold WellFormed
  infer_instance

/-- The globals as `main` leaves them before `jack_activate`: the source file
loaded (lines 111-114), the recording buffer allocated with whatever content
the allocator gives it (line 115), both cursors 0 (line 18). -/
def initial_state {α : Type} (playback capture : List α) : State α :=
  { input_file_data := playback
    output_file_data := capture
    input_file_frames := playback.length
    output_file_frames := capture.length
    input_offset := 0
    output_offset := 0 }

/-! ## A sequence of audio cycles -/

/-- What the server presents in one cycle: the frame count and the two port
buffers. -/
structure Cycle (α : Type) where
  /-- The frame count of the cycle. -/
  nframes : Nat
  /-- The input port buffer. -/
  inbuf : List α
  /-- The output port buffer. -/
  outbuf : List α
  deriving DecidableEq, Repr

/-- The frame count fits `jack_nframes_t`, both port buffers hold at least
`nframes` samples, and the output port buffer holds at least one sample. -/
def ValidCycle {α : Type} (c : Cycle α) : Prop :=
  c.nframes < NFRAMES_MOD ∧ c.nframes ≤ c.inbuf.length ∧
  c.nframes ≤ c.outbuf.length ∧ 0 < c.outbuf.length

instance {α : Type} (c : Cycle α) : Decidable (ValidCycle c) := by
  unfold ValidCycle
  infer_instance

/-- The server calls `process` once per cycle, in order. -/
def run {α : Type} [Zero α] (s : State α) : List (Cycle α) → Option (State α)
  | [] => some s
  | c :: cs =>
    match process s c.nframes c.inbuf c.outbuf with
    | none => none
    | some r => run r.state cs

/-- The frame counts of a sequence of cycles, added up. -/
def total_frames {α : Type} (cs : List (Cycle α)) : Nat :=
  (cs.map fun c => c.nframes).sum

/-- The sum over the cycles of `to_write = min (frame_count, playback_length -
playback cursor before that cycle)`, the cursor being read from the state the
run has reached. -/
def sum_to_write {α : Type} [Zero α] (s : State α) : List (Cycle α) → Nat
  | [] => 0
  | c :: cs =>
    min c.nframes (s.input_file_frames - s.input_offset) +
      match process s c.nframes c.inbuf c.outbuf with
      | none => 0
      | some r => sum_to_write r.state cs

/-! ## The start-up sequence of `main` -/

/-- What the command line and the two libraries answer during one run of
`main`. -/
structure Env where
  /-- The argument count. -/
  argc : Int
  /-- Whether `sf_open` of the source file returned a handle. -/
  infile_opened : Bool
  /-- The channel count of the source file, `sfinfo.channels`. -/
  channels : Int
  /-- The sample rate of the source file, `sfinfo.samplerate`. -/
  file_samplerate : Int
  /-- Whether `jack_client_open` returned a client. -/
  client_opened : Bool
  /-- The bit `status & JackServerFailed`. -/
  server_failed : Bool
  /-- The bit `status & JackServerStarted`. -/
  server_started : Bool
  /-- The bit `status & JackNameNotUnique`. -/
  name_not_unique : Bool
  /-- The value of `jack_get_sample_rate`. -/
  jack_sample_rate : Nat
  /-- Whether `jack_port_register` returned the input port. -/
  input_port_registered : Bool
  /-- Whether `jack_port_register` returned the output port. -/
  output_port_registered : Bool
  /-- The value of `jack_activate`. -/
  activate_result : Int
  /-- Whether `jack_get_ports` for physical output (capture-side) ports returned
  a list. -/
  capture_ports_found : Bool
  /-- The value of `jack_connect` to the input port. -/
  connect_input_result : Int
  /-- Whether `jack_get_ports` for physical input (playback-side) ports returned
  a list. -/
  playback_ports_found : Bool
  /-- The value of `jack_connect` from the output port. -/
  connect_output_result : Int
  deriving DecidableEq, Repr

/-- The lines `main` prints on the error stream. -/
inductive Message where
  | usage
  | sndfile_error
  | invalid_channels
  | client_open_failed
  | unable_to_connect_to_server
  | server_started
  | unique_name_assigned
  | samplerate_mismatch
  | no_more_ports
  | cannot_activate
  | no_physical_capture_ports
  | cannot_connect_input_ports
  | no_physical_playback_ports
  | cannot_connect_output_ports
  deriving DecidableEq, Repr

/-- How far `main` gets: it calls `exit` with a status, or it arrives at the
loop `while (output_offset < output_file_frames)` of line 219. -/
inductive Outcome where
  | exited (status : Int)
  | poll_loop
  deriving DecidableEq, Repr

/-- The function `main` up to the poll loop: what it prints and how far it
gets. The callbacks that run beside it after `jack_activate` are not part of
this function. -/
def main (e : Env) : List Message × Outcome :=
  if e.argc ≠ 6 then ([Message.usage], Outcome.exited 1)
  else if e.infile_opened = false then ([Message.sndfile_error], Outcome.exited 1)
  else if e.channels ≠ 1 then ([Message.invalid_channels], Outcome.exited 1)
  else if e.client_opened = false then
    (Message.client_open_failed ::
      (if e.server_failed then [Message.unable_to_connect_to_server] else []),
     Outcome.exited 1)
  else
    let log1 : List Message :=
      (if e.server_started then [Message.server_started] else []) ++
      (if e.name_not_unique then [Message.unique_name_assigned] else [])
    let log2 : List Message :=
      log1 ++
      (if e.jack_sample_rate ≠ to_ulong e.file_samplerate then [Message.samplerate_mismatch]
       else [])
    if e.input_port_registered = false ∨ e.output_port_registered = false then
      (log2 ++ [Message.no_more_ports], Outcome.exited 1)
    else if e.activate_result ≠ 0 then (log2 ++ [Message.cannot_activate], Outcome.exited 1)
    else if e.capture_ports_found = false then
      (log2 ++ [Message.no_physical_capture_ports], Outcome.exited 1)
    else
      let log3 : List Message :=
        log2 ++
        (if e.connect_input_result ≠ 0 then [Message.cannot_connect_input_ports] else [])
      if e.playback_ports_found = false then
        (log3 ++ [Message.no_physical_playback_ports], Outcome.exited 1)
      else
        (log3 ++
          (if e.connect_output_result ≠ 0 then [Message.cannot_connect_output_ports] else []),
         Outcome.poll_loop)

/-- Argument parsing, input-file loading, transport connection, port
registration and activation have all succeeded. -/
def SetupSucceeded (e : Env) : Prop :=
  e.argc = 6 ∧ e.infile_opened = true ∧ e.channels = 1 ∧ e.client_opened = true ∧
  e.input_port_registered = true ∧ e.output_port_registered = true ∧ e.activate_result = 0

instance (e : Env) : Decidable (SetupSucceeded e) := by
  unfold SetupSucceeded
  infer_instance

/-! ## Arithmetic facts used by every proof -/

theorem MIN_eq_min (a b : Nat) : MIN a b = min a b := by
  unfold MIN
  split <;> omega

theorem ulong_sub_eq (a b : Nat) (ha : a < ULONG_MOD) (hb : b ≤ a) : ulong_sub a b = a - b := by
  unfold ulong_sub ULONG_MOD at *
  omega

theorem to_long_eq (u : Nat) (hu : u < NFRAMES_MOD) : to_long u = (u : Int) := by
  unfold to_long ULONG_MOD
  unfold NFRAMES_MOD at hu
  have h1 : u % 2 ^ 64 = u := Nat.mod_eq_of_lt (by omega)
  rw [h1, if_pos (by omega)]

theorem to_ulong_eq (u : Nat) (hu : u < ULONG_MOD) : to_ulong (u : Int) = u := by
  unfold to_ulong
  have h : ((u : Int) % (ULONG_MOD : Int)) = ((u % ULONG_MOD : Nat) : Int) := by
    norm_cast
  rw [h, Int.toNat_ofNat, Nat.mod_eq_of_lt hu]

theorem byte_count_div (u : Nat) (hu : u < NFRAMES_MOD) :
    byte_count (u : Int) / SAMPLE_SIZE = u := by
  have h64 : u < ULONG_MOD := by unfold NFRAMES_MOD at hu; unfold ULONG_MOD; omega
  unfold byte_count
  rw [to_ulong_eq u h64]
  unfold NFRAMES_MOD at hu
  unfold SAMPLE_SIZE ULONG_MOD
  omega

theorem ulong_add_long_eq (off u : Nat) (hu : u < ULONG_MOD) (h : off + u < ULONG_MOD) :
    ulong_add_long off (u : Int) = off + u := by
  unfold ulong_add_long
  rw [to_ulong_eq u hu, Nat.mod_eq_of_lt h]

theorem frames_to_write_eq {α : Type} (s : State α) (nframes : Nat)
    (hn : nframes < NFRAMES_MOD) (hPb : s.input_file_frames < ULONG_MOD)
    (hpc : s.input_offset ≤ s.input_file_frames) :
    frames_to_write s nframes
      = ((min nframes (s.input_file_frames - s.input_offset) : Nat) : Int) := by
  unfold frames_to_write
  rw [ulong_sub_eq _ _ hPb hpc, MIN_eq_min, to_long_eq]
  exact lt_of_le_of_lt (Nat.min_le_left _ _) hn

theorem frames_to_read_eq {α : Type} (s : State α) (nframes : Nat)
    (hn : nframes < NFRAMES_MOD) (hCb : s.output_file_frames < ULONG_MOD)
    (hcc : s.output_offset ≤ s.output_file_frames) :
    frames_to_read s nframes
      = ((min nframes (s.output_file_frames - s.output_offset) : Nat) : Int) := by
  unfold frames_to_read
  rw [ulong_sub_eq _ _ hCb hcc, MIN_eq_min, to_long_eq]
  exact lt_of_le_of_lt (Nat.min_le_left _ _) hn

/-- One call of `process` on a state whose buffers have their declared lengths
and whose cursors lie inside them: the complete effect. -/
theorem process_eq {α : Type} [Zero α] (s : State α) (nframes : Nat) (inbuf outbuf : List α)
    (hn : nframes < NFRAMES_MOD)
    (hP : s.input_file_data.length = s.input_file_frames)
    (hPb : s.input_file_frames < ULONG_MOD)
    (hpc : s.input_offset ≤ s.input_file_frames)
    (hC : s.output_file_data.length = s.output_file_frames)
    (hCb : s.output_file_frames < ULONG_MOD)
    (hcc : s.output_offset ≤ s.output_file_frames)
    (hin : nframes ≤ inbuf.length)
    (hout : nframes ≤ outbuf.length) (hout0 : 0 < outbuf.length) :
    process s nframes inbuf outbuf = some
      { state :=
          { input_file_data := s.input_file_data
            output_file_data :=
              s.output_file_data.take s.output_offset ++
                (inbuf.take (min nframes (s.output_file_frames - s.output_offset)) ++
                  s.output_file_data.drop
                    (s.output_offset + min nframes (s.output_file_frames - s.output_offset)))
            input_file_frames := s.input_file_frames
            output_file_frames := s.output_file_frames
            input_offset := s.input_offset + min nframes (s.input_file_frames - s.input_offset)
            output_offset :=
              s.output_offset + min nframes (s.output_file_frames - s.output_offset) }
        out :=
          (0 : α) ::
            (((s.input_file_data.drop s.input_offset).take
                (min nframes (s.input_file_frames - s.input_offset)) ++
              outbuf.drop (min nframes (s.input_file_frames - s.input_offset))).drop 1)
        ret := 0 } := by
  have hw : min nframes (s.input_file_frames - s.input_offset) < NFRAMES_MOD :=
    lt_of_le_of_lt (Nat.min_le_left _ _) hn
  have hr : min nframes (s.output_file_frames - s.output_offset) < NFRAMES_MOD :=
    lt_of_le_of_lt (Nat.min_le_left _ _) hn
  have hw64 : min nframes (s.input_file_frames - s.input_offset) < ULONG_MOD := by
    unfold NFRAMES_MOD at hw; unfold ULONG_MOD; omega
  have hr64 : min nframes (s.output_file_frames - s.output_offset) < ULONG_MOD := by
    unfold NFRAMES_MOD at hr; unfold ULONG_MOD; omega
  have hwle : min nframes (s.input_file_frames - s.input_offset) ≤ outbuf.length :=
    le_trans (Nat.min_le_left _ _) hout
  have hwsrc : s.input_offset + min nframes (s.input_file_frames - s.input_offset)
      ≤ s.input_file_data.length := by omega
  have hrle : min nframes (s.output_file_frames - s.output_offset) ≤ inbuf.length :=
    le_trans (Nat.min_le_left _ _) hin
  have hrdst : s.output_offset + min nframes (s.output_file_frames - s.output_offset)
      ≤ s.output_file_data.length := by omega
  have hone : SAMPLE_SIZE / SAMPLE_SIZE = 1 := by decide
  unfold process
  rw [frames_to_write_eq s nframes hn hPb hpc, frames_to_read_eq s nframes hn hCb hcc]
  unfold memcpy memset_zero
  rw [byte_count_div _ hw, byte_count_div _ hr, hone,
    ulong_add_long_eq _ _ hw64 (by omega), ulong_add_long_eq _ _ hr64 (by omega)]
  simp only [Nat.zero_add, List.take_zero, List.nil_append, List.drop_zero]
  rw [if_pos ⟨hwle, hwsrc⟩]
  simp only []
  rw [if_pos (by simp only [List.length_append, List.length_take, List.length_drop]; omega)]
  simp only []
  rw [if_pos ⟨hrdst, hrle⟩]
  simp [List.replicate]

/-! ## Reading a buffer after a copy -/

theorem getElem?_splice {α : Type} (dst src : List α) (d n j : Nat)
    (hd : d + n ≤ dst.length) (hn : n ≤ src.length) :
    (dst.take d ++ (src.take n ++ dst.drop (d + n)))[j]?
      = if d ≤ j ∧ j < d + n then src[j - d]? else dst[j]? := by
  have hlen1 : (dst.take d).length = d := by rw [List.length_take]; omega
  have hlen2 : (src.take n).length = n := by rw [List.length_take]; omega
  by_cases h1 : j < d
  · rw [if_neg (by omega), List.getElem?_append_left (by omega), List.getElem?_take_of_lt h1]
  · by_cases h2 : j < d + n
    · rw [if_pos ⟨by omega, h2⟩, List.getElem?_append_right (by omega), hlen1,
        List.getElem?_append_left (by omega), List.getElem?_take_of_lt (by omega)]
    · rw [if_neg (by omega), List.getElem?_append_right (by omega), hlen1,
        List.getElem?_append_right (by omega), hlen2, List.getElem?_drop]
      congr 1
      omega

theorem length_splice {α : Type} (dst src : List α) (d n : Nat)
    (hd : d + n ≤ dst.length) (hn : n ≤ src.length) :
    (dst.take d ++ (src.take n ++ dst.drop (d + n))).length = dst.length := by
  simp only [List.length_append, List.length_take, List.length_drop]
  omega

theorem getElem?_cleared {α : Type} [Zero α] (data outb : List α) (off w j : Nat)
    (hsrc : off + w ≤ data.length) :
    ((0 : α) :: (((data.drop off).take w ++ outb.drop w).drop 1))[j]?
      = if j = 0 then some (0 : α) else if j < w then data[off + j]? else outb[j]? := by
  have hlen : ((data.drop off).take w).length = w := by
    rw [List.length_take, List.length_drop]; omega
  cases j with
  | zero => simp
  | succ k =>
    rw [if_neg (by omega), List.getElem?_cons_succ, List.getElem?_drop]
    by_cases h : k + 1 < w
    · rw [if_pos h, List.getElem?_append_left (by omega),
        List.getElem?_take_of_lt (by omega), List.getElem?_drop]
      congr 1
      omega
    · rw [if_neg h, List.getElem?_append_right (by omega), hlen, List.getElem?_drop]
      congr 1
      omega

theorem length_cleared {α : Type} [Zero α] (data outb : List α) (off w : Nat)
    (hsrc : off + w ≤ data.length) (hw : w ≤ outb.length) (h0 : 0 < outb.length) :
    ((0 : α) :: (((data.drop off).take w ++ outb.drop w).drop 1)).length = outb.length := by
  simp only [List.length_cons, List.length_append, List.length_take, List.length_drop]
  omega

/-! ## Cursors over one cycle and over a run -/

/-- One valid cycle on a well-formed state: the call returns, the state stays
well-formed, and both cursors move by the capped frame count. -/
theorem process_step {α : Type} [Zero α] (s : State α) (c : Cycle α)
    (hs : WellFormed s) (hc : ValidCycle c) :
    ∃ r, process s c.nframes c.inbuf c.outbuf = some r ∧ WellFormed r.state ∧
      r.state.input_file_frames = s.input_file_frames ∧
      r.state.output_file_frames = s.output_file_frames ∧
      r.state.input_offset
        = s.input_offset + min c.nframes (s.input_file_frames - s.input_offset) ∧
      r.state.output_offset
        = s.output_offset + min c.nframes (s.output_file_frames - s.output_offset) ∧
      (s.output_offset = s.output_file_frames →
        r.state.output_file_data = s.output_file_data) := by
  obtain ⟨hP, hPb, hpc, hC, hCb, hcc⟩ := hs
  obtain ⟨hn, hin, hout, hout0⟩ := hc
  have hrle : min c.nframes (s.output_file_frames - s.output_offset) ≤ c.inbuf.length :=
    le_trans (Nat.min_le_left _ _) hin
  have hrdst : s.output_offset + min c.nframes (s.output_file_frames - s.output_offset)
      ≤ s.output_file_data.length := by omega
  refine ⟨_, process_eq s c.nframes c.inbuf c.outbuf hn hP hPb hpc hC hCb hcc hin hout hout0,
    ⟨hP, hPb, ?_, ?_, hCb, ?_⟩, rfl, rfl, rfl, rfl, ?_⟩
  · show s.input_offset + min c.nframes (s.input_file_frames - s.input_offset)
      ≤ s.input_file_frames
    omega
  · show (s.output_file_data.take s.output_offset ++
      (c.inbuf.take (min c.nframes (s.output_file_frames - s.output_offset)) ++
        s.output_file_data.drop
          (s.output_offset + min c.nframes (s.output_file_frames - s.output_offset)))).length
            = s.output_file_frames
    rw [length_splice _ _ _ _ hrdst hrle, hC]
  · show s.output_offset + min c.nframes (s.output_file_frames - s.output_offset)
      ≤ s.output_file_frames
    omega
  · intro hfull
    show s.output_file_data.take s.output_offset ++
      (c.inbuf.take (min c.nframes (s.output_file_frames - s.output_offset)) ++
        s.output_file_data.drop
          (s.output_offset + min c.nframes (s.output_file_frames - s.output_offset)))
            = s.output_file_data
    have h0 : min c.nframes (s.output_file_frames - s.output_offset) = 0 := by omega
    rw [h0, List.take_zero, List.nil_append, Nat.add_zero, List.take_append_drop]

/-- A run of valid cycles from a well-formed state: the run returns, the state
stays well-formed, and both cursors have their closed form. -/
theorem run_spec {α : Type} [Zero α] (cs : List (Cycle α)) :
    ∀ s : State α, WellFormed s → (∀ c ∈ cs, ValidCycle c) →
      ∃ t, run s cs = some t ∧ WellFormed t ∧
        t.input_file_frames = s.input_file_frames ∧
        t.output_file_frames = s.output_file_frames ∧
        t.input_offset = min (s.input_offset + total_frames cs) s.input_file_frames ∧
        t.output_offset = min (s.output_offset + total_frames cs) s.output_file_frames ∧
        t.input_offset = s.input_offset + sum_to_write s cs ∧
        (s.output_offset = s.output_file_frames →
          t.output_file_data = s.output_file_data) := by
  induction cs with
  | nil =>
    intro s hs _
    obtain ⟨hP, hPb, hpc, hC, hCb, hcc⟩ := hs
    refine ⟨s, rfl, ⟨hP, hPb, hpc, hC, hCb, hcc⟩, rfl, rfl, ?_, ?_, ?_, fun _ => rfl⟩
    · show s.input_offset = min (s.input_offset + 0) s.input_file_frames
      omega
    · show s.output_offset = min (s.output_offset + 0) s.output_file_frames
      omega
    · show s.input_offset = s.input_offset + 0
      omega
  | cons c cs ih =>
    intro s hs hcs
    obtain ⟨r, hr, hwf, hf1, hf2, hi, ho, hdata⟩ :=
      process_step s c hs (hcs c (List.mem_cons_self _ _))
    obtain ⟨t, ht, htwf, htf1, htf2, hti, hto, hts, htdata⟩ :=
      ih r.state hwf (fun d hd => hcs d (List.mem_cons_of_mem _ hd))
    obtain ⟨_, _, hpc, _, _, hcc⟩ := hs
    have htot : total_frames (c :: cs) = c.nframes + total_frames cs := by
      simp [total_frames]
    have hsum : sum_to_write s (c :: cs)
        = min c.nframes (s.input_file_frames - s.input_offset) + sum_to_write r.state cs := by
      simp only [sum_to_write, hr]
    have hrun : run s (c :: cs) = some t := by
      simp only [run, hr]
      exact ht
    refine ⟨t, hrun, htwf, by rw [htf1, hf1], by rw [htf2, hf2], ?_, ?_, ?_, ?_⟩
    · rw [hti, hi, hf1, htot]
      omega
    · rw [hto, ho, hf2, htot]
      omega
    · rw [hts, hi, hsum]
      omega
    · intro hfull
      have h0 : r.state.output_offset = r.state.output_file_frames := by
        rw [ho, hf2]
        omega
      rw [htdata h0, hdata hfull]

theorem run_append {α : Type} [Zero α] (cs cs' : List (Cycle α)) :
    ∀ s t : State α, run s cs = some t → run s (cs ++ cs') = run t cs' := by
  induction cs with
  | nil =>
    intro s t h
    simp only [run, Option.some.injEq] at h
    rw [List.nil_append, h]
  | cons c cs ih =>
    intro s t h
    rw [List.cons_append]
    cases hp : process s c.nframes c.inbuf c.outbuf with
    | none =>
      simp only [run, hp] at h
      cases h
    | some r =>
      simp only [run, hp] at h ⊢
      exact ih r.state t h

theorem initial_state_wellFormed {α : Type} (playback capture : List α)
    (hP : playback.length < ULONG_MOD) (hC : capture.length < ULONG_MOD) :
    WellFormed (initial_state playback capture) :=
  ⟨rfl, hP, Nat.zero_le _, rfl, hC, Nat.zero_le _⟩

/-! ## One cycle -/

/-- C1, evaluated on the code: the source file holds the samples 1 2 3 4 5, the
playback cursor is 0 and the cycle has 2 frames, so `to_write = 2`. The call
leaves `out = [0, 2]`: `out[1]` is the playback sample at cursor + 1, but
`out[0]` is 0 and not the playback sample 1 at the cursor, because the `memset`
of line 59 runs after the `memcpy` of line 57. -/
theorem C1_first_copied_sample_is_overwritten :
    process (α := Nat) (initial_state [1, 2, 3, 4, 5] [7, 7, 7]) 2 [11, 12] [9, 9]
      = some
          { state :=
              { input_file_data := [1, 2, 3, 4, 5]
                output_file_data := [11, 12, 7]
                input_file_frames := 5
                output_file_frames := 3
                input_offset := 2
                output_offset := 2 }
            out := [0, 2]
            ret := 0 } ∧
    min 2 ((initial_state (α := Nat) [1, 2, 3, 4, 5] [7, 7, 7]).input_file_frames
      - (initial_state (α := Nat) [1, 2, 3, 4, 5] [7, 7, 7]).input_offset) = 2 ∧
    ([0, 2] : List Nat)[0]? ≠ ([1, 2, 3, 4, 5] : List Nat)[0 + 0]? := by
  decide

/-- C2: on a well-formed state, with an input port buffer of `nframes` samples
(and an output port buffer that has room for the playback half of the call),
`process` returns, and with `to_read = min nframes (capture length - capture
cursor)` the capture buffer holds `inbuf[i]` at `cursor + i` for every
`i < to_read`, holds its old value everywhere outside `[cursor, cursor + to_read)`,
keeps its length, and the capture cursor is `cursor + to_read`. -/
theorem C2_capture_copy {α : Type} [Zero α] (s : State α) (nframes : Nat)
    (inbuf outbuf : List α)
    (hs : WellFormed s) (hn : nframes < NFRAMES_MOD) (hin : inbuf.length = nframes)
    (hout : nframes ≤ outbuf.length) (hout0 : 0 < outbuf.length) :
    ∃ r, process s nframes inbuf outbuf = some r ∧
      (∀ i, i < min nframes (s.output_file_frames - s.output_offset) →
        i < inbuf.length ∧
        r.state.output_file_data[s.output_offset + i]? = inbuf[i]?) ∧
      (∀ j, (j < s.output_offset ∨
          s.output_offset + min nframes (s.output_file_frames - s.output_offset) ≤ j) →
        r.state.output_file_data[j]? = s.output_file_data[j]?) ∧
      r.state.output_file_data.length = s.output_file_data.length ∧
      r.state.output_offset
        = s.output_offset + min nframes (s.output_file_frames - s.output_offset) := by
  obtain ⟨hP, hPb, hpc, hC, hCb, hcc⟩ := hs
  have hrle : min nframes (s.output_file_frames - s.output_offset) ≤ inbuf.length := by omega
  have hrdst : s.output_offset + min nframes (s.output_file_frames - s.output_offset)
      ≤ s.output_file_data.length := by omega
  refine ⟨_, process_eq s nframes inbuf outbuf hn hP hPb hpc hC hCb hcc (by omega) hout hout0,
    ?_, ?_, ?_, rfl⟩
  · intro i hi
    refine ⟨by omega, ?_⟩
    show (s.output_file_data.take s.output_offset ++
      (inbuf.take (min nframes (s.output_file_frames - s.output_offset)) ++
        s.output_file_data.drop
          (s.output_offset + min nframes (s.output_file_frames - s.output_offset))))[
            s.output_offset + i]? = inbuf[i]?
    rw [getElem?_splice _ _ _ _ _ hrdst hrle, if_pos ⟨by omega, by omega⟩]
    congr 1
    omega
  · intro j hj
    show (s.output_file_data.take s.output_offset ++
      (inbuf.take (min nframes (s.output_file_frames - s.output_offset)) ++
        s.output_file_data.drop
          (s.output_offset + min nframes (s.output_file_frames - s.output_offset))))[j]?
            = s.output_file_data[j]?
    rw [getElem?_splice _ _ _ _ _ hrdst hrle, if_neg (by omega)]
  · exact length_splice _ _ _ _ hrdst hrle

/-- Witness of C2: three frames arrive when one slot of the capture buffer is
left. -/
theorem C2_capture_copy_witness :
    (WellFormed (α := Nat) ⟨[1, 2, 3, 4, 5], [7, 8, 9], 5, 3, 4, 2⟩ ∧ 3 < NFRAMES_MOD ∧
      ([11, 12, 13] : List Nat).length = 3 ∧ 3 ≤ ([0, 0, 0] : List Nat).length ∧
      0 < ([0, 0, 0] : List Nat).length) ∧
    ∃ r, process (α := Nat) ⟨[1, 2, 3, 4, 5], [7, 8, 9], 5, 3, 4, 2⟩ 3 [11, 12, 13] [0, 0, 0]
        = some r ∧
      (∀ i, i < min 3 (3 - 2) →
        i < [11, 12, 13].length ∧
        r.state.output_file_data[2 + i]? = ([11, 12, 13] : List Nat)[i]?) ∧
      (∀ j, (j < 2 ∨ 2 + min 3 (3 - 2) ≤ j) →
        r.state.output_file_data[j]? = ([7, 8, 9] : List Nat)[j]?) ∧
      r.state.output_file_data.length = [7, 8, 9].length ∧
      r.state.output_offset = 2 + min 3 (3 - 2) :=
  ⟨by decide,
    C2_capture_copy (α := Nat) ⟨[1, 2, 3, 4, 5], [7, 8, 9], 5, 3, 4, 2⟩ 3 [11, 12, 13] [0, 0, 0]
      (by decide) (by decide) (by decide) (by decide) (by decide)⟩

/-- C6, refuted on the code: a cycle that leaves the capture cursor below the
capture length (2 < 3) and a cycle that leaves it equal to the capture length
(3 = 3) return the same value, 0. -/
theorem C6_return_value_does_not_distinguish :
    ∃ r1 r2 : Result Nat,
      process (initial_state [1, 2, 3, 4, 5] [7, 7, 7]) 2 [11, 12] [9, 9] = some r1 ∧
      process ⟨[1, 2, 3, 4, 5], [11, 12, 7], 5, 3, 2, 2⟩ 2 [13, 14] [9, 9] = some r2 ∧
      r1.state.output_offset < r1.state.output_file_frames ∧
      r2.state.output_offset = r2.state.output_file_frames ∧
      r1.ret = 0 ∧ r2.ret = 0 ∧ r1.ret = r2.ret :=
  ⟨⟨⟨[1, 2, 3, 4, 5], [11, 12, 7], 5, 3, 2, 2⟩, [0, 2], 0⟩,
    ⟨⟨[1, 2, 3, 4, 5], [11, 12, 13], 5, 3, 4, 3⟩, [0, 4], 0⟩,
    by decide, by decide, by decide, by decide, by decide, by decide, by decide⟩

/-- C6 as amended: on a well-formed state and a cycle whose port buffers have
room, `process` returns, and the value it returns is 0, whether the capture
cursor after the cycle is below the capture length or equal to it. -/
theorem C6_return_value_is_zero {α : Type} [Zero α] (s : State α) (nframes : Nat)
    (inbuf outbuf : List α)
    (hs : WellFormed s) (hn : nframes < NFRAMES_MOD) (hin : nframes ≤ inbuf.length)
    (hout : nframes ≤ outbuf.length) (hout0 : 0 < outbuf.length) :
    ∃ r, process s nframes inbuf outbuf = some r ∧ r.ret = 0 ∧
      r.state.output_offset ≤ r.state.output_file_frames := by
  obtain ⟨hP, hPb, hpc, hC, hCb, hcc⟩ := hs
  refine ⟨_, process_eq s nframes inbuf outbuf hn hP hPb hpc hC hCb hcc hin hout hout0,
    rfl, ?_⟩
  show s.output_offset + min nframes (s.output_file_frames - s.output_offset)
    ≤ s.output_file_frames
  omega

/-- Witness of C6 as amended: the cycle that completes the recording. -/
theorem C6_return_value_is_zero_witness :
    (WellFormed (α := Nat) ⟨[1, 2, 3, 4, 5], [11, 12, 7], 5, 3, 2, 2⟩ ∧ 2 < NFRAMES_MOD ∧
      2 ≤ ([13, 14] : List Nat).length ∧ 2 ≤ ([9, 9] : List Nat).length ∧
      0 < ([9, 9] : List Nat).length) ∧
    ∃ r, process (α := Nat) ⟨[1, 2, 3, 4, 5], [11, 12, 7], 5, 3, 2, 2⟩ 2 [13, 14] [9, 9]
        = some r ∧ r.ret = 0 ∧ r.state.output_offset ≤ r.state.output_file_frames :=
  ⟨by decide,
    C6_return_value_is_zero (α := Nat) ⟨[1, 2, 3, 4, 5], [11, 12, 7], 5, 3, 2, 2⟩ 2 [13, 14]
      [9, 9] (by decide) (by decide) (by decide) (by decide) (by decide)⟩

/-- C9: on a well-formed state, with `nframes ≥ 1`, port buffers of `nframes`
samples and `to_write = min nframes (playback length - playback cursor)` smaller
than `nframes`, `process` returns with `out[0] = 0`, and every output position
`i` with `max to_write 1 ≤ i < nframes` holds the value it held before the call.
When nothing is left to play, every output position other than 0 holds its old
value and the playback cursor is unchanged. -/
theorem C9_first_sample_cleared_rest_untouched {α : Type} [Zero α] (s : State α)
    (nframes : Nat) (inbuf outbuf : List α)
    (hs : WellFormed s) (hn : nframes < NFRAMES_MOD) (h1 : 1 ≤ nframes)
    (hin : inbuf.length = nframes) (hout : outbuf.length = nframes)
    (hshort : min nframes (s.input_file_frames - s.input_offset) < nframes) :
    ∃ r, process s nframes inbuf outbuf = some r ∧
      r.out.length = nframes ∧
      r.out[0]? = some (0 : α) ∧
      (∀ i, max (min nframes (s.input_file_frames - s.input_offset)) 1 ≤ i → i < nframes →
        r.out[i]? = outbuf[i]?) ∧
      (s.input_file_frames - s.input_offset = 0 →
        (∀ i, i ≠ 0 → r.out[i]? = outbuf[i]?) ∧ r.state.input_offset = s.input_offset) := by
  obtain ⟨hP, hPb, hpc, hC, hCb, hcc⟩ := hs
  have hsrc : s.input_offset + min nframes (s.input_file_frames - s.input_offset)
      ≤ s.input_file_data.length := by omega
  have key : ∀ j, ((0 : α) :: (((s.input_file_data.drop s.input_offset).take
        (min nframes (s.input_file_frames - s.input_offset)) ++
        outbuf.drop (min nframes (s.input_file_frames - s.input_offset))).drop 1))[j]?
      = if j = 0 then some (0 : α)
        else if j < min nframes (s.input_file_frames - s.input_offset)
          then s.input_file_data[s.input_offset + j]? else outbuf[j]? :=
    fun j => getElem?_cleared _ _ _ _ j hsrc
  refine ⟨_, process_eq s nframes inbuf outbuf hn hP hPb hpc hC hCb hcc (by omega) (by omega)
    (by omega), ?_, ?_, ?_, ?_⟩
  · show ((0 : α) :: _).length = nframes
    rw [length_cleared _ _ _ _ hsrc (by omega) (by omega), hout]
  · show ((0 : α) :: _)[0]? = some 0
    rw [key 0, if_pos rfl]
  · intro i hi _
    show ((0 : α) :: _)[i]? = outbuf[i]?
    rw [key i, if_neg (by omega), if_neg (by omega)]
  · intro h0
    refine ⟨?_, ?_⟩
    · intro i hi
      show ((0 : α) :: _)[i]? = outbuf[i]?
      rw [key i, if_neg hi, if_neg (by omega)]
    · show s.input_offset + min nframes (s.input_file_frames - s.input_offset)
        = s.input_offset
      omega

/-- Witness of C9: four frames are asked for when the playback buffer is
exhausted. -/
theorem C9_first_sample_cleared_rest_untouched_witness :
    (WellFormed (α := Nat) ⟨[1, 2, 3, 4, 5], [7, 7, 7], 5, 3, 5, 3⟩ ∧ 4 < NFRAMES_MOD ∧
      1 ≤ 4 ∧ ([11, 12, 13, 14] : List Nat).length = 4 ∧
      ([21, 22, 23, 24] : List Nat).length = 4 ∧ min 4 (5 - 5) < 4) ∧
    ∃ r, process (α := Nat) ⟨[1, 2, 3, 4, 5], [7, 7, 7], 5, 3, 5, 3⟩ 4 [11, 12, 13, 14]
        [21, 22, 23, 24] = some r ∧
      r.out.length = 4 ∧
      r.out[0]? = some (0 : Nat) ∧
      (∀ i, max (min 4 (5 - 5)) 1 ≤ i → i < 4 →
        r.out[i]? = ([21, 22, 23, 24] : List Nat)[i]?) ∧
      (5 - 5 = 0 →
        (∀ i, i ≠ 0 → r.out[i]? = ([21, 22, 23, 24] : List Nat)[i]?) ∧
          r.state.input_offset = 5) :=
  ⟨by decide,
    C9_first_sample_cleared_rest_untouched (α := Nat) ⟨[1, 2, 3, 4, 5], [7, 7, 7], 5, 3, 5, 3⟩ 4
      [11, 12, 13, 14] [21, 22, 23, 24] (by decide) (by decide) (by decide) (by decide)
      (by decide) (by decide)⟩

/-- C10: on a well-formed state, with `nframes ≥ 1` and port buffers of exactly
`nframes` samples, `process` returns (no copy leaves its buffer); neither
`input_file_frames - input_offset` nor `output_file_frames - output_offset`
wraps around; the two frame counts are not negative and their byte counts do
not overflow; the playback range read, the output range written, the cleared
first output sample, the input range read and the capture range written all
lie inside their buffers. -/
theorem C10_accesses_in_bounds {α : Type} [Zero α] (s : State α) (nframes : Nat)
    (inbuf outbuf : List α)
    (hs : WellFormed s) (hn : nframes < NFRAMES_MOD) (h1 : 1 ≤ nframes)
    (hin : inbuf.length = nframes) (hout : outbuf.length = nframes) :
    (process s nframes inbuf outbuf).isSome = true ∧
    ((ulong_sub s.input_file_frames s.input_offset : Nat) : Int)
      = (s.input_file_frames : Int) - (s.input_offset : Int) ∧
    ((ulong_sub s.output_file_frames s.output_offset : Nat) : Int)
      = (s.output_file_frames : Int) - (s.output_offset : Int) ∧
    0 ≤ frames_to_write s nframes ∧
    ((byte_count (frames_to_write s nframes) : Nat) : Int)
      = (SAMPLE_SIZE : Int) * frames_to_write s nframes ∧
    (s.input_offset : Int) + frames_to_write s nframes ≤ (s.input_file_data.length : Int) ∧
    frames_to_write s nframes ≤ (outbuf.length : Int) ∧
    SAMPLE_SIZE / SAMPLE_SIZE ≤ outbuf.length ∧
    0 ≤ frames_to_read s nframes ∧
    ((byte_count (frames_to_read s nframes) : Nat) : Int)
      = (SAMPLE_SIZE : Int) * frames_to_read s nframes ∧
    frames_to_read s nframes ≤ (inbuf.length : Int) ∧
    (s.output_offset : Int) + frames_to_read s nframes ≤ (s.output_file_data.length : Int) := by
  obtain ⟨hP, hPb, hpc, hC, hCb, hcc⟩ := hs
  have hproc := process_eq s nframes inbuf outbuf hn hP hPb hpc hC hCb hcc (by omega)
    (by omega) (by omega)
  have hbytes : ∀ u : Nat, u < NFRAMES_MOD →
      ((byte_count (u : Int) : Nat) : Int) = (SAMPLE_SIZE : Int) * (u : Int) := by
    intro u hu
    have h64 : u < ULONG_MOD := by unfold NFRAMES_MOD at hu; unfold ULONG_MOD; omega
    unfold byte_count
    rw [to_ulong_eq u h64]
    unfold NFRAMES_MOD at hu
    unfold SAMPLE_SIZE ULONG_MOD
    omega
  have hw : min nframes (s.input_file_frames - s.input_offset) < NFRAMES_MOD :=
    lt_of_le_of_lt (Nat.min_le_left _ _) hn
  have hr : min nframes (s.output_file_frames - s.output_offset) < NFRAMES_MOD :=
    lt_of_le_of_lt (Nat.min_le_left _ _) hn
  have hone : SAMPLE_SIZE / SAMPLE_SIZE = 1 := by decide
  rw [hproc, frames_to_write_eq s nframes hn hPb hpc, frames_to_read_eq s nframes hn hCb hcc,
    ulong_sub_eq _ _ hPb hpc, ulong_sub_eq _ _ hCb hcc, hbytes _ hw, hbytes _ hr, hone]
  refine ⟨rfl, ?_, ?_, ?_, rfl, ?_, ?_, ?_, ?_, rfl, ?_, ?_⟩ <;> omega

/-- Witness of C10: the second cycle of a recording of three frames. -/
theorem C10_accesses_in_bounds_witness :
    (WellFormed (α := Nat) ⟨[1, 2, 3, 4, 5], [11, 12, 7], 5, 3, 2, 2⟩ ∧ 2 < NFRAMES_MOD ∧
      1 ≤ 2 ∧ ([13, 14] : List Nat).length = 2 ∧ ([9, 9] : List Nat).length = 2) ∧
    (process (α := Nat) ⟨[1, 2, 3, 4, 5], [11, 12, 7], 5, 3, 2, 2⟩ 2 [13, 14] [9, 9]).isSome
      = true :=
  ⟨by decide,
    (C10_accesses_in_bounds (α := Nat) ⟨[1, 2, 3, 4, 5], [11, 12, 7], 5, 3, 2, 2⟩ 2 [13, 14]
      [9, 9] (by decide) (by decide) (by decide) (by decide) (by decide)).1⟩

/-! ## A run of cycles from the initial state -/

/-- C3: from the initial state, after any valid cycles `cs` (state `s1`) and any
further valid cycles `cs'` (state `s2`), whatever their frame counts and input
samples: the run returns, the capture cursor has not decreased from `s1` to
`s2`, it is at most the capture buffer length, the capture buffer keeps its
length, and if the cursor had reached the capture length at `s1` (as it has
from the start when that length is 0) then capture buffer and capture cursor at
`s2` are those of `s1`. -/
theorem C3_capture_cursor_monotone_bounded_then_frozen {α : Type} [Zero α]
    (playback capture : List α) (cs cs' : List (Cycle α))
    (hP : playback.length < ULONG_MOD) (hC : capture.length < ULONG_MOD)
    (hcs : ∀ c ∈ cs, ValidCycle c) (hcs' : ∀ c ∈ cs', ValidCycle c) :
    ∃ s1 s2, run (initial_state playback capture) cs = some s1 ∧
      run (initial_state playback capture) (cs ++ cs') = some s2 ∧
      run s1 cs' = some s2 ∧
      s1.output_offset ≤ s2.output_offset ∧
      s2.output_offset ≤ capture.length ∧
      s2.output_file_data.length = capture.length ∧
      (s1.output_offset = capture.length →
        s2.output_file_data = s1.output_file_data ∧ s2.output_offset = s1.output_offset) := by
  obtain ⟨s1, h1, hwf1, _, hf1, _, _, _, _⟩ :=
    run_spec cs (initial_state playback capture) (initial_state_wellFormed _ _ hP hC) hcs
  obtain ⟨s2, h2, hwf2, _, hf2, _, ho2, _, hdata2⟩ := run_spec cs' s1 hwf1 hcs'
  have hlen1 : s1.output_file_frames = capture.length := hf1
  obtain ⟨_, _, _, _, _, hcc1⟩ := hwf1
  obtain ⟨_, _, _, hC2, _, hcc2⟩ := hwf2
  refine ⟨s1, s2, h1, ?_, h2, ?_, ?_, ?_, ?_⟩
  · rw [run_append cs cs' _ s1 h1, h2]
  · rw [ho2]
    omega
  · rw [← hlen1, ← hf2]
    exact hcc2
  · rw [hC2, hf2, hlen1]
  · intro hfull
    refine ⟨hdata2 (by rw [hfull, hlen1]), ?_⟩
    rw [ho2]
    omega

/-- Witness of C3: a capture length of 0, so that the cursor equals the length
before the first cycle; two cycles of two frames follow. -/
theorem C3_capture_cursor_monotone_bounded_then_frozen_witness :
    (([1, 2, 3, 4, 5] : List Nat).length < ULONG_MOD ∧ ([] : List Nat).length < ULONG_MOD ∧
      (∀ c ∈ ([] : List (Cycle Nat)), ValidCycle c) ∧
      (∀ c ∈ ([⟨2, [11, 12], [9, 9]⟩, ⟨2, [13, 14], [9, 9]⟩] : List (Cycle Nat)),
        ValidCycle c)) ∧
    ∃ s1 s2, run (initial_state ([1, 2, 3, 4, 5] : List Nat) []) [] = some s1 ∧
      run (initial_state ([1, 2, 3, 4, 5] : List Nat) [])
        ([] ++ [⟨2, [11, 12], [9, 9]⟩, ⟨2, [13, 14], [9, 9]⟩]) = some s2 ∧
      run s1 [⟨2, [11, 12], [9, 9]⟩, ⟨2, [13, 14], [9, 9]⟩] = some s2 ∧
      s1.output_offset ≤ s2.output_offset ∧
      s2.output_offset ≤ ([] : List Nat).length ∧
      s2.output_file_data.length = ([] : List Nat).length ∧
      (s1.output_offset = ([] : List Nat).length →
        s2.output_file_data = s1.output_file_data ∧ s2.output_offset = s1.output_offset) :=
  ⟨by decide,
    C3_capture_cursor_monotone_bounded_then_frozen ([1, 2, 3, 4, 5] : List Nat) [] []
      [⟨2, [11, 12], [9, 9]⟩, ⟨2, [13, 14], [9, 9]⟩] (by decide) (by decide) (by decide)
      (by decide)⟩

/-- C4: from the initial state, after any valid cycles the run returns, the
playback cursor equals `min (sum of to_write over the cycles) (playback
length)`, each `to_write` being `min frame_count (playback length - playback
cursor before that cycle)`, and the playback cursor is at most the playback
length. -/
theorem C4_playback_cursor_is_capped_sum_of_to_write {α : Type} [Zero α]
    (playback capture : List α) (cs : List (Cycle α))
    (hP : playback.length < ULONG_MOD) (hC : capture.length < ULONG_MOD)
    (hcs : ∀ c ∈ cs, ValidCycle c) :
    ∃ t, run (initial_state playback capture) cs = some t ∧
      t.input_offset
        = min (sum_to_write (initial_state playback capture) cs) playback.length ∧
      t.input_offset ≤ playback.length ∧
      t.input_file_data.length = playback.length := by
  obtain ⟨t, ht, hwf, hf, _, _, _, hsum, _⟩ :=
    run_spec cs (initial_state playback capture) (initial_state_wellFormed _ _ hP hC) hcs
  have hlen : t.input_file_frames = playback.length := hf
  obtain ⟨hPt, _, hpc, _, _, _⟩ := hwf
  have h0 : (initial_state playback capture).input_offset = 0 := rfl
  rw [h0, Nat.zero_add] at hsum
  refine ⟨t, ht, ?_, ?_, ?_⟩
  · rw [← hsum]
    omega
  · omega
  · rw [hPt, hlen]

/-- Witness of C4: five playback samples, three cycles of two frames. -/
theorem C4_playback_cursor_is_capped_sum_of_to_write_witness :
    (([1, 2, 3, 4, 5] : List Nat).length < ULONG_MOD ∧
      ([7, 7, 7] : List Nat).length < ULONG_MOD ∧
      (∀ c ∈ ([⟨2, [11, 12], [9, 9]⟩, ⟨2, [13, 14], [9, 9]⟩, ⟨2, [15, 16], [9, 9]⟩] :
        List (Cycle Nat)), ValidCycle c)) ∧
    ∃ t, run (initial_state ([1, 2, 3, 4, 5] : List Nat) [7, 7, 7])
        [⟨2, [11, 12], [9, 9]⟩, ⟨2, [13, 14], [9, 9]⟩, ⟨2, [15, 16], [9, 9]⟩] = some t ∧
      t.input_offset
        = min (sum_to_write (initial_state ([1, 2, 3, 4, 5] : List Nat) [7, 7, 7])
            [⟨2, [11, 12], [9, 9]⟩, ⟨2, [13, 14], [9, 9]⟩, ⟨2, [15, 16], [9, 9]⟩])
          ([1, 2, 3, 4, 5] : List Nat).length ∧
      t.input_offset ≤ ([1, 2, 3, 4, 5] : List Nat).length ∧
      t.input_file_data.length = ([1, 2, 3, 4, 5] : List Nat).length :=
  ⟨by decide,
    C4_playback_cursor_is_capped_sum_of_to_write ([1, 2, 3, 4, 5] : List Nat) [7, 7, 7]
      [⟨2, [11, 12], [9, 9]⟩, ⟨2, [13, 14], [9, 9]⟩, ⟨2, [15, 16], [9, 9]⟩] (by decide)
      (by decide) (by decide)⟩

/-- C5: from the initial state with playback length `P` and capture length `C`,
after any valid cycles with frame counts `n_1 .. n_N` the run returns, the
playback cursor is `min (n_1 + .. + n_N) P` and the capture cursor is
`min (n_1 + .. + n_N) C`. -/
theorem C5_cursors_closed_form {α : Type} [Zero α]
    (playback capture : List α) (cs : List (Cycle α))
    (hP : playback.length < ULONG_MOD) (hC : capture.length < ULONG_MOD)
    (hcs : ∀ c ∈ cs, ValidCycle c) :
    ∃ t, run (initial_state playback capture) cs = some t ∧
      t.input_offset = min (total_frames cs) playback.length ∧
      t.output_offset = min (total_frames cs) capture.length := by
  obtain ⟨t, ht, _, _, _, hi, ho, _, _⟩ :=
    run_spec cs (initial_state playback capture) (initial_state_wellFormed _ _ hP hC) hcs
  have h0 : (initial_state playback capture).input_offset = 0 := rfl
  have h1 : (initial_state playback capture).output_offset = 0 := rfl
  have h2 : (initial_state playback capture).input_file_frames = playback.length := rfl
  have h3 : (initial_state playback capture).output_file_frames = capture.length := rfl
  rw [h0, h2, Nat.zero_add] at hi
  rw [h1, h3, Nat.zero_add] at ho
  exact ⟨t, ht, hi, ho⟩

/-- Witness of C5, the scenario: five playback samples, a capture length of 3
and cycles of two frames. The cursors are (2, 2) after the first cycle, (4, 3)
after the second, and the capture cursor is still 3 after the third. -/
theorem C5_cursors_closed_form_witness :
    (([1, 2, 3, 4, 5] : List Nat).length < ULONG_MOD ∧
      ([7, 7, 7] : List Nat).length < ULONG_MOD ∧
      (∀ c ∈ ([⟨2, [11, 12], [9, 9]⟩, ⟨2, [13, 14], [9, 9]⟩, ⟨2, [15, 16], [9, 9]⟩] :
        List (Cycle Nat)), ValidCycle c)) ∧
    ∃ t1 t2 t3,
      run (initial_state ([1, 2, 3, 4, 5] : List Nat) [7, 7, 7])
        [⟨2, [11, 12], [9, 9]⟩] = some t1 ∧
      t1.input_offset = 2 ∧ t1.output_offset = 2 ∧
      run (initial_state ([1, 2, 3, 4, 5] : List Nat) [7, 7, 7])
        [⟨2, [11, 12], [9, 9]⟩, ⟨2, [13, 14], [9, 9]⟩] = some t2 ∧
      t2.input_offset = 4 ∧ t2.output_offset = 3 ∧
      run (initial_state ([1, 2, 3, 4, 5] : List Nat) [7, 7, 7])
        [⟨2, [11, 12], [9, 9]⟩, ⟨2, [13, 14], [9, 9]⟩, ⟨2, [15, 16], [9, 9]⟩] = some t3 ∧
      t3.input_offset = 5 ∧ t3.output_offset = 3 := by
  obtain ⟨t1, h1, hp1, hc1⟩ :=
    C5_cursors_closed_form ([1, 2, 3, 4, 5] : List Nat) [7, 7, 7]
      [⟨2, [11, 12], [9, 9]⟩] (by decide) (by decide) (by decide)
  obtain ⟨t2, h2, hp2, hc2⟩ :=
    C5_cursors_closed_form ([1, 2, 3, 4, 5] : List Nat) [7, 7, 7]
      [⟨2, [11, 12], [9, 9]⟩, ⟨2, [13, 14], [9, 9]⟩] (by decide) (by decide) (by decide)
  obtain ⟨t3, h3, hp3, hc3⟩ :=
    C5_cursors_closed_form ([1, 2, 3, 4, 5] : List Nat) [7, 7, 7]
      [⟨2, [11, 12], [9, 9]⟩, ⟨2, [13, 14], [9, 9]⟩, ⟨2, [15, 16], [9, 9]⟩] (by decide)
      (by decide) (by decide)
  exact ⟨by decide, t1, t2, t3, h1, hp1, hc1, h2, hp2, hc2, h3, hp3, hc3⟩

/-! ## The start-up sequence -/

/-- C7, refuted on the code: with argument parsing, file loading, connection,
port registration and activation all successful, a port query that finds no
physical capture-side port makes `main` exit with status 1, and so does one
that finds no physical playback-side port; the poll loop is not reached. -/
theorem C7_missing_physical_port_is_fatal :
    SetupSucceeded
        { argc := 6, infile_opened := true, channels := 1, file_samplerate := 48000
          client_opened := true, server_failed := false, server_started := false
          name_not_unique := false, jack_sample_rate := 48000
          input_port_registered := true, output_port_registered := true
          activate_result := 0, capture_ports_found := false, connect_input_result := 0
          playback_ports_found := true, connect_output_result := 0 } ∧
    main
        { argc := 6, infile_opened := true, channels := 1, file_samplerate := 48000
          client_opened := true, server_failed := false, server_started := false
          name_not_unique := false, jack_sample_rate := 48000
          input_port_registered := true, output_port_registered := true
          activate_result := 0, capture_ports_found := false, connect_input_result := 0
          playback_ports_found := true, connect_output_result := 0 }
      = ([Message.no_physical_capture_ports], Outcome.exited 1) ∧
    SetupSucceeded
        { argc := 6, infile_opened := true, channels := 1, file_samplerate := 48000
          client_opened := true, server_failed := false, server_started := false
          name_not_unique := false, jack_sample_rate := 48000
          input_port_registered := true, output_port_registered := true
          activate_result := 0, capture_ports_found := true, connect_input_result := 0
          playback_ports_found := false, connect_output_result := 0 } ∧
    main
        { argc := 6, infile_opened := true, channels := 1, file_samplerate := 48000
          client_opened := true, server_failed := false, server_started := false
          name_not_unique := false, jack_sample_rate := 48000
          input_port_registered := true, output_port_registered := true
          activate_result := 0, capture_ports_found := true, connect_input_result := 0
          playback_ports_found := false, connect_output_result := 0 }
      = ([Message.no_physical_playback_ports], Outcome.exited 1) := by
  decide

/-- C7 as amended: when argument parsing, file loading, connection, port
registration and activation have all succeeded and each of the two port queries
returns a list, `main` reaches the poll loop, whatever the two sample rates and
whatever the two `jack_connect` calls return; when either query returns no
list, `main` exits with status 1. -/
theorem C7_mismatch_and_connect_failure_nonfatal (e : Env) (h : SetupSucceeded e) :
    (e.capture_ports_found = true → e.playback_ports_found = true →
      (main e).2 = Outcome.poll_loop) ∧
    (e.capture_ports_found = false ∨ e.playback_ports_found = false →
      (main e).2 = Outcome.exited 1) := by
  obtain ⟨h1, h2, h3, h4, h5, h6, h7⟩ := h
  constructor
  · intro hc hp
    simp [main, h1, h2, h3, h4, h5, h6, h7, hc, hp]
  · intro hq
    rcases hq with hc | hp
    · simp [main, h1, h2, h3, h4, h5, h6, h7, hc]
    · cases hcap : e.capture_ports_found <;> simp [main, h1, h2, h3, h4, h5, h6, h7, hcap, hp]

/-- Witness of C7 as amended: a file at 44100 Hz on a server at 48000 Hz, both
`jack_connect` calls failing, and `main` is in the poll loop having printed the
three warnings. -/
theorem C7_mismatch_and_connect_failure_nonfatal_witness :
    SetupSucceeded
        { argc := 6, infile_opened := true, channels := 1, file_samplerate := 44100
          client_opened := true, server_failed := false, server_started := false
          name_not_unique := false, jack_sample_rate := 48000
          input_port_registered := true, output_port_registered := true
          activate_result := 0, capture_ports_found := true, connect_input_result := 1
          playback_ports_found := true, connect_output_result := 1 } ∧
    (main
        { argc := 6, infile_opened := true, channels := 1, file_samplerate := 44100
          client_opened := true, server_failed := false, server_started := false
          name_not_unique := false, jack_sample_rate := 48000
          input_port_registered := true, output_port_registered := true
          activate_result := 0, capture_ports_found := true, connect_input_result := 1
          playback_ports_found := true, connect_output_result := 1 }).2
      = Outcome.poll_loop ∧
    (main
        { argc := 6, infile_opened := true, channels := 1, file_samplerate := 44100
          client_opened := true, server_failed := false, server_started := false
          name_not_unique := false, jack_sample_rate := 48000
          input_port_registered := true, output_port_registered := true
          activate_result := 0, capture_ports_found := true, connect_input_result := 1
          playback_ports_found := true, connect_output_result := 1 }).1
      = [Message.samplerate_mismatch, Message.cannot_connect_input_ports,
          Message.cannot_connect_output_ports] :=
  ⟨by decide,
    (C7_mismatch_and_connect_failure_nonfatal
      { argc := 6, infile_opened := true, channels := 1, file_samplerate := 44100
        client_opened := true, server_failed := false, server_started := false
        name_not_unique := false, jack_sample_rate := 48000
        input_port_registered := true, output_port_registered := true
        activate_result := 0, capture_ports_found := true, connect_input_result := 1
        playback_ports_found := true, connect_output_result := 1 } (by decide)).1 rfl rfl,
    by decide⟩

end JackPipe
